import Mathlib

/-!
Verification development for the `plugin-arena` repository.

Shallow embedding of the decision-and-dedup core:
* trend scoring (`src/src/utils/analytics.ts`, `detectTrendingThreads`),
* the engagement pass, hourly budgets and the engagement ledger
  (`ArenaService` in the service file: `runEngagementPass`,
  `exceededEngagementBudget`, `hasAlreadyEngaged`, `recordEngagement`,
  `executeEngagementDecision`),
* the mention monitor's dedup state (`ArenaMentionMonitorService`,
  `src/src/services/mentionMonitor.ts`),
* the two scheduling disciplines (timer-rearm-on-completion in
  `ArenaService.scheduleNextPost` / `scheduleNextDiscovery` /
  `scheduleNextEngagement`, and the fixed `setInterval` cadence in
  `ArenaMentionMonitorService.startMonitoring`).

Milliseconds timestamps are embedded as `ℤ`; JavaScript float arithmetic on
engagement weights and hours is embedded as `ℚ` (every quantity the code
manipulates here is a ratio of integers); the single irrational operation,
`Math.sqrt` in the combined trend score, is embedded as `Real.sqrt`.
-/

namespace PluginArena

/-! ### Trend scoring — `detectTrendingThreads` (analytics.ts lines 30–89)

`ArenaThread` keeps exactly the fields `detectTrendingThreads` reads:
the engagement counters, the optional `bookmarkCount`, and `createdDate`
(embedded as epoch milliseconds; the source stores a date string and takes
`new Date(t.createdDate).getTime()`). -/

structure ArenaThread where
  id : String
  likeCount : ℕ
  repostCount : ℕ
  answerCount : ℕ
  bookmarkCount : Option ℕ
  createdDate : ℤ
  deriving DecidableEq, Repr

/-- Options record of `detectTrendingThreads` (analytics.ts lines 20–28);
`none` denotes an absent field. -/
structure TrendingOptions where
  timeWindow : Option ℚ := none
  minEngagement : Option ℕ := none
  weightLikes : Option ℚ := none
  weightReposts : Option ℚ := none
  weightReplies : Option ℚ := none
  weightBookmarks : Option ℚ := none
  deriving DecidableEq, Repr

/-- One hour in milliseconds (`60 * 60 * 1000`). -/
def hourMs : ℚ := 60 * 60 * 1000

/-- `options?.timeWindow || 24` (line 35): `||` falls back on `0` as well. -/
def optTimeWindow (o : TrendingOptions) : ℚ :=
  match o.timeWindow with
  | none => 24
  | some w => if w = 0 then 24 else w

/-- Weighted total engagement (lines 52–56); weights default to
`1, 2, 1.5, 1` via `??`, and `thread.bookmarkCount || 0` reads the
optional bookmark counter. -/
def weightedEngagement (o : TrendingOptions) (t : ArenaThread) : ℚ :=
  t.likeCount * (o.weightLikes.getD 1)
    + t.repostCount * (o.weightReposts.getD 2)
    + t.answerCount * (o.weightReplies.getD (3/2))
    + (t.bookmarkCount.getD 0) * (o.weightBookmarks.getD 1)

/-- Raw (unweighted) engagement used by the `minEngagement` filter
(lines 80–84). -/
def rawEngagement (t : ArenaThread) : ℕ :=
  t.likeCount + t.repostCount + t.answerCount + t.bookmarkCount.getD 0

/-- Age in hours, clamped: `Math.max(age, 0.1)` (lines 49–50). -/
def clampedAgeHours (now : ℤ) (t : ArenaThread) : ℚ :=
  max (((now - t.createdDate : ℤ) : ℚ) / hourMs) (1/10)

/-- Scored record produced by the `map` step (lines 48–78).  The source
stores `score = velocityScore * Math.sqrt(totalEngagement)` as a float;
here the rational components are stored and the score is the derived real
`TrendingThread.score` below. -/
structure TrendingThread where
  thread : ArenaThread
  velocityScore : ℚ
  rank : ℕ
  totalEngagement : ℚ
  engagementPerHour : ℚ
  ageHours : ℚ
  deriving DecidableEq, Repr

/-- The combined score of line 65: `velocityScore * Math.sqrt(totalEngagement)`. -/
noncomputable def TrendingThread.score (t : TrendingThread) : ℝ :=
  (t.velocityScore : ℝ) * Real.sqrt (t.totalEngagement : ℝ)

/-- Decidable sort key: the signed square of the score.  For the
nonnegative velocities produced by this pipeline,
`score = Real.sqrt scoreKey` (`score_eq_sqrt_scoreKey` below), so ordering
by `scoreKey` is ordering by `score`. -/
def TrendingThread.scoreKey (t : TrendingThread) : ℚ :=
  t.velocityScore ^ 2 * t.totalEngagement

/-- The body of the `map` step (lines 48–78): computes age, weighted
engagement, velocity and the metrics block; `rank` is `0` until sorting. -/
def scoreThread (o : TrendingOptions) (now : ℤ) (t : ArenaThread) : TrendingThread :=
  let ageHours := clampedAgeHours now t
  let totalEngagement := weightedEngagement o t
  let engagementPerHour := totalEngagement / ageHours
  { thread := t
    velocityScore := engagementPerHour
    rank := 0
    totalEngagement := totalEngagement
    engagementPerHour := engagementPerHour
    ageHours := ageHours }

/-- Insertion step of the stable descending sort.
`Array.prototype.sort` with comparator `(a, b) => b.score - a.score`
(line 87) is a stable sort descending by score; a stable sort for a total
preorder produces a unique output, so this insertion sort (which keeps an
earlier element in front of a later one exactly when the later one does
not have a strictly larger key) computes the same list. -/
def insertByScore (x : TrendingThread) : List TrendingThread → List TrendingThread
  | [] => [x]
  | y :: ys => if y.scoreKey ≤ x.scoreKey then x :: y :: ys else y :: insertByScore x ys

/-- Stable sort descending by score (line 87). -/
def sortByScoreDesc : List TrendingThread → List TrendingThread
  | [] => []
  | x :: xs => insertByScore x (sortByScoreDesc xs)

/-- Rank assignment `.map((t, index) => ({ ...t, rank: index + 1 }))` (line 88). -/
def assignRanks : ℕ → List TrendingThread → List TrendingThread
  | _, [] => []
  | i, t :: ts => { t with rank := i + 1 } :: assignRanks (i + 1) ts

/-- The pipeline before sorting: age-window filter (lines 44–47), scoring
map (lines 48–78), raw-engagement floor filter (lines 79–85). -/
def scoredCandidates (o : TrendingOptions) (now : ℤ) (threads : List ArenaThread) :
    List TrendingThread :=
  ((threads.filter fun t =>
      decide (((now - t.createdDate : ℤ) : ℚ) ≤ optTimeWindow o * hourMs)).map
    (scoreThread o now)).filter fun t =>
      decide ((o.minEngagement.getD 3 : ℕ) ≤ rawEngagement t.thread)

/-- `detectTrendingThreads` (analytics.ts lines 30–89). -/
def detectTrendingThreads (now : ℤ) (threads : List ArenaThread) (o : TrendingOptions) :
    List TrendingThread :=
  assignRanks 0 (sortByScoreDesc (scoredCandidates o now threads))

/-! Bridge between the real-valued score and the rational sort key. -/

lemma score_eq_sqrt_scoreKey (t : TrendingThread) (hv : 0 ≤ t.velocityScore) :
    t.score = Real.sqrt (t.scoreKey : ℚ) := by
  unfold TrendingThread.score TrendingThread.scoreKey
  push_cast
  rw [Real.sqrt_mul (by positivity), Real.sqrt_sq (by exact_mod_cast hv)]

lemma score_le_score_iff (a b : TrendingThread)
    (ha : 0 ≤ a.velocityScore) (hb : 0 ≤ b.velocityScore)
    (hWb : 0 ≤ b.totalEngagement) :
    a.score ≤ b.score ↔ a.scoreKey ≤ b.scoreKey := by
  rw [score_eq_sqrt_scoreKey a ha, score_eq_sqrt_scoreKey b hb]
  have hkb : (0 : ℝ) ≤ ((b.scoreKey : ℚ) : ℝ) := by
    have h0 : 0 ≤ b.scoreKey := by
      unfold TrendingThread.scoreKey; positivity
    exact_mod_cast h0
  rw [Real.sqrt_le_sqrt_iff hkb]
  exact ⟨fun h => by exact_mod_cast h, fun h => by exact_mod_cast h⟩

lemma scoreThread_ageHours (o : TrendingOptions) (now : ℤ) (t : ArenaThread) :
    (scoreThread o now t).ageHours = clampedAgeHours now t := rfl

lemma scoreThread_velocityScore (o : TrendingOptions) (now : ℤ) (t : ArenaThread) :
    (scoreThread o now t).velocityScore = weightedEngagement o t / clampedAgeHours now t := rfl

lemma scoreThread_totalEngagement (o : TrendingOptions) (now : ℤ) (t : ArenaThread) :
    (scoreThread o now t).totalEngagement = weightedEngagement o t := rfl

lemma weightedEngagement_default (t : ArenaThread) :
    weightedEngagement {} t =
      (t.likeCount : ℚ) * 1 + (t.repostCount : ℚ) * 2 + (t.answerCount : ℚ) * (3/2)
        + ((t.bookmarkCount.getD 0 : ℕ) : ℚ) * 1 := rfl

lemma weightedEngagement_default_nonneg (t : ArenaThread) :
    0 ≤ weightedEngagement {} t := by
  rw [weightedEngagement_default]
  positivity

lemma clampedAgeHours_pos (now : ℤ) (t : ArenaThread) :
    0 < clampedAgeHours now t :=
  lt_of_lt_of_le (by norm_num) (le_max_right _ _)

/-! ### Claims C1 and C8 — Scenario A and score safety -/

/-- Scenario A of the spec: `likeCount = 10`, `repostCount = 5`,
`answerCount = 2`, `bookmarkCount = 0`, created at time `0` and scored at
`now = 7200000` ms, i.e. exactly 2 hours old. -/
def scenarioA : ArenaThread :=
  { id := "scenario-a"
    likeCount := 10
    repostCount := 5
    answerCount := 2
    bookmarkCount := some 0
    createdDate := 0 }

lemma weightedEngagement_scenarioA : weightedEngagement {} scenarioA = 23 := by
  rw [weightedEngagement_default]
  norm_num [scenarioA]

lemma clampedAgeHours_scenarioA : clampedAgeHours 7200000 scenarioA = 2 := by
  unfold clampedAgeHours hourMs
  norm_num [scenarioA]

lemma velocity_scenarioA : (scoreThread {} 7200000 scenarioA).velocityScore = 23/2 := by
  rw [scoreThread_velocityScore, weightedEngagement_scenarioA, clampedAgeHours_scenarioA]

/-- Claim C1, counterexample.  The claim asserts that for Scenario A with
default weights the scorer computes `engagementPerHour = 13.0` and
`score = 13 * √23`.  The code computes weighted engagement
`10*1 + 5*2 + 2*1.5 = 23` and divides by the 2-hour age, giving
`11.5`, not `13`; so the conjunction is false. -/
theorem scenarioA_velocity_not_thirteen :
    ¬ ((scoreThread {} 7200000 scenarioA).velocityScore = 13 ∧
       (scoreThread {} 7200000 scenarioA).score = 13 * Real.sqrt 23) := by
  intro h
  have h23 : (23/2 : ℚ) = 13 := by rw [← velocity_scenarioA]; exact h.1
  norm_num at h23

/-- Claim C1, amended.  For Scenario A (likes 10, reposts 5, replies 2,
bookmarks 0, age exactly 2 h, default weights) the scorer computes
weighted engagement `23`, velocity (`engagementPerHour`)
`23 / 2 = 11.5`, and combined score `11.5 * √23` (≈ 55.15, not 62.3). -/
theorem scenarioA_velocity_and_score :
    (scoreThread {} 7200000 scenarioA).totalEngagement = 23 ∧
    (scoreThread {} 7200000 scenarioA).velocityScore = 23/2 ∧
    (scoreThread {} 7200000 scenarioA).score = (23/2) * Real.sqrt 23 := by
  have h2 : (scoreThread {} 7200000 scenarioA).totalEngagement = 23 := by
    rw [scoreThread_totalEngagement, weightedEngagement_scenarioA]
  refine ⟨h2, velocity_scenarioA, ?_⟩
  unfold TrendingThread.score
  rw [velocity_scenarioA, h2]
  push_cast
  ring

/-- Claim C8, confirmed.  For an item whose counters are natural numbers
and whose creation timestamp is at most `now`, under the default weights:
the age is clamped to at least `0.1` hours (so the division is by a
positive quantity and cannot blow up) and both the velocity and the
combined score are nonnegative. -/
theorem trend_score_nonneg (now : ℤ) (t : ArenaThread) (_h : t.createdDate ≤ now) :
    (1/10 : ℚ) ≤ (scoreThread {} now t).ageHours ∧
    0 ≤ (scoreThread {} now t).velocityScore ∧
    0 ≤ (scoreThread {} now t).score := by
  refine ⟨?_, ?_, ?_⟩
  · rw [scoreThread_ageHours]
    exact le_max_right _ _
  · rw [scoreThread_velocityScore]
    exact div_nonneg (weightedEngagement_default_nonneg t)
      (le_of_lt (clampedAgeHours_pos now t))
  · unfold TrendingThread.score
    refine mul_nonneg ?_ (Real.sqrt_nonneg _)
    rw [scoreThread_velocityScore]
    have hq : 0 ≤ weightedEngagement {} t / clampedAgeHours now t :=
      div_nonneg (weightedEngagement_default_nonneg t)
        (le_of_lt (clampedAgeHours_pos now t))
    exact_mod_cast hq

/-- Witness for C8 at Scenario A (created at 0, scored at 2 hours). -/
theorem trend_score_nonneg_witness :
    scenarioA.createdDate ≤ 7200000 ∧
    ((1/10 : ℚ) ≤ (scoreThread {} 7200000 scenarioA).ageHours ∧
     0 ≤ (scoreThread {} 7200000 scenarioA).velocityScore ∧
     0 ≤ (scoreThread {} 7200000 scenarioA).score) :=
  ⟨by decide, trend_score_nonneg 7200000 scenarioA (by decide)⟩

/-! ### Claim C3 — ranking tie-break

The source sorts with the comparator `(a, b) => b.score - a.score` alone
(line 87): there is no secondary comparison on the creation timestamp, so
two items with equal score stay in input order (stable sort). -/

lemma scoreThread_thread (o : TrendingOptions) (now : ℤ) (t : ArenaThread) :
    (scoreThread o now t).thread = t := rfl

lemma score_eq_score_iff (a b : TrendingThread)
    (ha : 0 ≤ a.velocityScore) (hb : 0 ≤ b.velocityScore)
    (hWa : 0 ≤ a.totalEngagement) (hWb : 0 ≤ b.totalEngagement) :
    a.score = b.score ↔ a.scoreKey = b.scoreKey := by
  rw [score_eq_sqrt_scoreKey a ha, score_eq_sqrt_scoreKey b hb]
  have hka : (0 : ℝ) ≤ ((a.scoreKey : ℚ) : ℝ) := by
    have h0 : 0 ≤ a.scoreKey := by unfold TrendingThread.scoreKey; positivity
    exact_mod_cast h0
  have hkb : (0 : ℝ) ≤ ((b.scoreKey : ℚ) : ℝ) := by
    have h0 : 0 ≤ b.scoreKey := by unfold TrendingThread.scoreKey; positivity
    exact_mod_cast h0
  rw [Real.sqrt_inj hka hkb]
  exact ⟨fun h => by exact_mod_cast h, fun h => by exact_mod_cast h⟩

lemma filter_insertByScore_of_ne (x : TrendingThread) (l : List TrendingThread) (k : ℚ)
    (hx : x.scoreKey ≠ k) :
    (insertByScore x l).filter (fun t => decide (t.scoreKey = k))
      = l.filter (fun t => decide (t.scoreKey = k)) := by
  induction l with
  | nil => simp [insertByScore, hx]
  | cons y ys ih =>
    unfold insertByScore
    by_cases h : y.scoreKey ≤ x.scoreKey
    · rw [if_pos h]
      simp [List.filter_cons, hx]
    · rw [if_neg h]
      simp [List.filter_cons, ih]

lemma filter_insertByScore_of_eq (x : TrendingThread) (l : List TrendingThread) (k : ℚ)
    (hx : x.scoreKey = k) :
    (insertByScore x l).filter (fun t => decide (t.scoreKey = k))
      = x :: l.filter (fun t => decide (t.scoreKey = k)) := by
  induction l with
  | nil => simp [insertByScore, hx]
  | cons y ys ih =>
    unfold insertByScore
    by_cases h : y.scoreKey ≤ x.scoreKey
    · rw [if_pos h]
      simp [List.filter_cons, hx]
    · rw [if_neg h]
      have hy : y.scoreKey ≠ k := by
        rw [← hx]
        intro hh
        exact h (le_of_eq hh)
      simp [List.filter_cons, hy, ih]

lemma filter_sortByScoreDesc (l : List TrendingThread) (k : ℚ) :
    (sortByScoreDesc l).filter (fun t => decide (t.scoreKey = k))
      = l.filter (fun t => decide (t.scoreKey = k)) := by
  induction l with
  | nil => rfl
  | cons x xs ih =>
    unfold sortByScoreDesc
    by_cases hx : x.scoreKey = k
    · rw [filter_insertByScore_of_eq _ _ _ hx, ih]
      simp [List.filter_cons, hx]
    · rw [filter_insertByScore_of_ne _ _ _ hx, ih]
      simp [List.filter_cons, hx]

lemma assignRanks_filter_map_thread (i : ℕ) (l : List TrendingThread) (k : ℚ) :
    ((assignRanks i l).filter (fun t => decide (t.scoreKey = k))).map (fun t => t.thread)
      = (l.filter (fun t => decide (t.scoreKey = k))).map (fun t => t.thread) := by
  induction l generalizing i with
  | nil => rfl
  | cons x xs ih =>
    unfold assignRanks
    have hkey : ({ x with rank := i + 1 } : TrendingThread).scoreKey = x.scoreKey := rfl
    by_cases hx : x.scoreKey = k
    · simp [List.filter_cons, hkey, hx, ih]
    · simp [List.filter_cons, hkey, hx, ih]

/-- Claim C3, amended.  The comparator has no tie-break: for every score
class (all items of one `scoreKey`, i.e. one real score for the pipeline's
nonnegative velocities — see `score_eq_score_iff`), the ranked output of
`detectTrendingThreads` lists that class in input order.  Which of two
equally-scored items comes first therefore depends on the input order,
not on the creation timestamps. -/
theorem trending_ties_preserve_input_order (now : ℤ) (o : TrendingOptions)
    (threads : List ArenaThread) (k : ℚ) :
    ((detectTrendingThreads now threads o).filter
        (fun t => decide (t.scoreKey = k))).map (fun t => t.thread)
      = ((scoredCandidates o now threads).filter
          (fun t => decide (t.scoreKey = k))).map (fun t => t.thread) := by
  unfold detectTrendingThreads
  rw [assignRanks_filter_map_thread, filter_sortByScoreDesc]

/-- Tied pair, fresher item: 4 likes, created 0.8 h before `now = 10000000`
(age `4/5` h), so velocity `5` and score `5·√4 = 10`. -/
def freshTiedThread : ArenaThread :=
  { id := "fresh"
    likeCount := 4
    repostCount := 0
    answerCount := 0
    bookmarkCount := none
    createdDate := 7120000 }

/-- Tied pair, older item: 9 likes, created 2.7 h before `now = 10000000`
(age `27/10` h), so velocity `10/3` and score `(10/3)·√9 = 10`. -/
def olderTiedThread : ArenaThread :=
  { id := "older"
    likeCount := 9
    repostCount := 0
    answerCount := 0
    bookmarkCount := none
    createdDate := 280000 }

lemma velocity_olderTied :
    (scoreThread {} 10000000 olderTiedThread).velocityScore = 10/3 := by
  rw [scoreThread_velocityScore, weightedEngagement_default]
  unfold clampedAgeHours hourMs
  norm_num [olderTiedThread]

lemma total_olderTied :
    (scoreThread {} 10000000 olderTiedThread).totalEngagement = 9 := by
  rw [scoreThread_totalEngagement, weightedEngagement_default]
  norm_num [olderTiedThread]

lemma velocity_freshTied :
    (scoreThread {} 10000000 freshTiedThread).velocityScore = 5 := by
  rw [scoreThread_velocityScore, weightedEngagement_default]
  unfold clampedAgeHours hourMs
  norm_num [freshTiedThread]

lemma total_freshTied :
    (scoreThread {} 10000000 freshTiedThread).totalEngagement = 4 := by
  rw [scoreThread_totalEngagement, weightedEngagement_default]
  norm_num [freshTiedThread]

lemma score_olderTied : (scoreThread {} 10000000 olderTiedThread).score = 10 := by
  unfold TrendingThread.score
  rw [velocity_olderTied, total_olderTied]
  rw [show ((9 : ℚ) : ℝ) = 3 ^ 2 by norm_num, Real.sqrt_sq (by norm_num : (0:ℝ) ≤ 3)]
  norm_num

lemma score_freshTied : (scoreThread {} 10000000 freshTiedThread).score = 10 := by
  unfold TrendingThread.score
  rw [velocity_freshTied, total_freshTied]
  rw [show ((4 : ℚ) : ℝ) = 2 ^ 2 by norm_num, Real.sqrt_sq (by norm_num : (0:ℝ) ≤ 2)]
  norm_num

lemma scoreKey_olderTied :
    (scoreThread {} 10000000 olderTiedThread).scoreKey = 100 := by
  unfold TrendingThread.scoreKey
  rw [velocity_olderTied, total_olderTied]
  norm_num

lemma scoreKey_freshTied :
    (scoreThread {} 10000000 freshTiedThread).scoreKey = 100 := by
  unfold TrendingThread.scoreKey
  rw [velocity_freshTied, total_freshTied]
  norm_num

lemma scoredCandidates_tiedPair :
    scoredCandidates {} 10000000 [olderTiedThread, freshTiedThread]
      = [scoreThread {} 10000000 olderTiedThread,
         scoreThread {} 10000000 freshTiedThread] := by
  unfold scoredCandidates
  simp only [List.filter_cons, List.filter_nil, List.map_cons, List.map_nil,
    decide_eq_true_eq, scoreThread_thread]
  norm_num [olderTiedThread, freshTiedThread, optTimeWindow, hourMs, rawEngagement,
    scoreThread_thread]

lemma sort_tiedPair :
    sortByScoreDesc
        [scoreThread {} 10000000 olderTiedThread, scoreThread {} 10000000 freshTiedThread]
      = [scoreThread {} 10000000 olderTiedThread, scoreThread {} 10000000 freshTiedThread] := by
  show insertByScore (scoreThread {} 10000000 olderTiedThread)
      [scoreThread {} 10000000 freshTiedThread] = _
  show (if (scoreThread {} 10000000 freshTiedThread).scoreKey
          ≤ (scoreThread {} 10000000 olderTiedThread).scoreKey then _ else _) = _
  rw [if_pos (by rw [scoreKey_olderTied, scoreKey_freshTied])]

lemma detectTrending_tiedPair :
    detectTrendingThreads 10000000 [olderTiedThread, freshTiedThread] {}
      = [{ scoreThread {} 10000000 olderTiedThread with rank := 1 },
         { scoreThread {} 10000000 freshTiedThread with rank := 2 }] := by
  unfold detectTrendingThreads
  rw [scoredCandidates_tiedPair, sort_tiedPair]
  rfl

/-- Claim C3, counterexample.  Two items with equal trend score (`10`, see
`score_olderTied`/`score_freshTied`) and different creation timestamps,
presented older-first, are ranked older-first by `detectTrendingThreads`:
the fresher item does NOT come first, and the tie order follows the input
order rather than an explicit timestamp tie-break. -/
theorem trending_tie_does_not_rank_fresher_first :
    (detectTrendingThreads 10000000 [olderTiedThread, freshTiedThread] {}).map
        (fun t => t.thread.id) = ["older", "fresh"]
    ∧ (scoreThread {} 10000000 olderTiedThread).score
        = (scoreThread {} 10000000 freshTiedThread).score
    ∧ olderTiedThread.createdDate < freshTiedThread.createdDate := by
  refine ⟨?_, ?_, by decide⟩
  · rw [detectTrending_tiedPair]
    rfl
  · rw [score_olderTied, score_freshTied]

/-! ### Engagement engine — `ArenaService` (service file)

State embedded from the class fields (lines 169–180): the four hourly
counters `engagementCounters` and the dedup map `engagedThreads` keyed by
`` `${threadId}:${action}` ``.  The JS `Map` is embedded as an association
list with `Map.set`/`Map.get`/`Map.delete` semantics (`mapSet` replaces
the entry for an existing key in place, `mapGet` finds the entry,
`mapDelete` removes it). -/

structure EngagementRecord where
  action : String
  timestamp : ℤ
  author : String
  deriving DecidableEq, Repr

abbrev EngagedLedger := List (String × EngagementRecord)

/-- 48 hours in milliseconds — the retention window of `hasAlreadyEngaged`
and of the cleanup in `recordEngagement`. -/
def engagementMaxAgeMs : ℤ := 48 * 60 * 60 * 1000

def mapSet (k : String) (v : EngagementRecord) : EngagedLedger → EngagedLedger
  | [] => [(k, v)]
  | (k', v') :: rest => if k' = k then (k, v) :: rest else (k', v') :: mapSet k v rest

def mapGet (k : String) : EngagedLedger → Option EngagementRecord
  | [] => none
  | (k', v') :: rest => if k' = k then some v' else mapGet k rest

def mapDelete (k : String) (m : EngagedLedger) : EngagedLedger :=
  m.eraseP (fun p => decide (p.1 = k))

/-- `hasAlreadyEngaged(threadId, action)` (service file lines 847–863):
looks up `` `${threadId}:${action}` ``; an entry older than 48 h is
deleted lazily and reported absent.  Returns the boolean together with
the (possibly pruned) map. -/
def hasAlreadyEngaged (now : ℤ) (threadId action : String) (m : EngagedLedger) :
    Bool × EngagedLedger :=
  match mapGet (threadId ++ ":" ++ action) m with
  | none => (false, m)
  | some r =>
    if engagementMaxAgeMs < now - r.timestamp then
      (false, mapDelete (threadId ++ ":" ++ action) m)
    else (true, m)

/-- `recordEngagement(threadId, action, author)` (lines 865–887):
`Map.set` of `{action, timestamp: Date.now(), author}` — an existing entry
for the key is OVERWRITTEN — followed, when the map has grown past 1000
entries, by a sweep deleting entries older than 48 h. -/
def recordEngagement (now : ℤ) (threadId action author : String) (m : EngagedLedger) :
    EngagedLedger :=
  let m' := mapSet (threadId ++ ":" ++ action) ⟨action, now, author⟩ m
  if 1000 < m'.length then
    m'.filter (fun p => ! decide (engagementMaxAgeMs < now - p.2.timestamp))
  else m'

structure Counter where
  count : ℕ
  resetAt : ℤ
  deriving DecidableEq, Repr

structure EngagementCounters where
  likes : Counter
  reposts : Counter
  replies : Counter
  follows : Counter
  deriving DecidableEq, Repr

/-- The budget ceilings from the service configuration. -/
structure EngagementConfig where
  maxLikesPerHour : ℕ
  maxRepostsPerHour : ℕ
  maxRepliesPerHour : ℕ
  maxFollowsPerHour : ℕ
  deriving DecidableEq, Repr

/-- The `resetIfNeeded` closure of `exceededEngagementBudget`
(lines 827–832): `if (now > counters[key].resetAt)` reset the count to 0
and advance the window end to `now + 1h`. -/
def resetIfNeeded (now : ℤ) (c : Counter) : Counter :=
  if c.resetAt < now then { count := 0, resetAt := now + 3600000 } else c

/-- `exceededEngagementBudget()` (lines 822–845): reset each counter whose
window has lapsed, then report whether every kind is at or above its
ceiling.  Returns the boolean together with the updated counters. -/
def exceededEngagementBudget (cfg : EngagementConfig) (now : ℤ)
    (c : EngagementCounters) : Bool × EngagementCounters :=
  let c' : EngagementCounters :=
    { likes := resetIfNeeded now c.likes
      reposts := resetIfNeeded now c.reposts
      replies := resetIfNeeded now c.replies
      follows := resetIfNeeded now c.follows }
  (decide (cfg.maxLikesPerHour ≤ c'.likes.count)
      && decide (cfg.maxRepostsPerHour ≤ c'.reposts.count)
      && decide (cfg.maxRepliesPerHour ≤ c'.replies.count)
      && decide (cfg.maxFollowsPerHour ≤ c'.follows.count),
    c')

structure EngagementState where
  counters : EngagementCounters
  engagedThreads : EngagedLedger
  deriving DecidableEq, Repr

/-- The fields of a discovery candidate that `executeEngagementDecision`
acts on (thread id and author handle). -/
structure Candidate where
  id : String
  author : String
  deriving DecidableEq, Repr

/-- Parsed oracle decision (`evaluateEngagementCandidate` result). -/
structure EngagementDecision where
  action : String
  rationale : String
  replyDraft : Option String
  deriving DecidableEq, Repr

/-- `executeEngagementDecision(candidate, decision)` (lines 965–1109).

Each branch, in source order: hourly-budget gate, dedup gate (via
`hasAlreadyEngaged`, which may prune an expired entry), for reply/quote a
non-empty-draft gate (`!decision.replyDraft` is also true for `""`), then
the awaited platform client call, and only after it returns the counter
increment and `recordEngagement`.  `callOk` is the outcome of that client
call; `callOk = false` means the awaited call threw, in which case the
returned flag is `true` (the exception propagates to the caller) and
neither increment nor record happens.  `quote` shares the reposts
counter.  The default case (including `"none"`) only logs. -/
def executeEngagementDecision (cfg : EngagementConfig) (now : ℤ) (callOk : Bool)
    (cand : Candidate) (dec : EngagementDecision) (st : EngagementState) :
    Bool × EngagementState :=
  if dec.action = "like" then
    if cfg.maxLikesPerHour ≤ st.counters.likes.count then (false, st)
    else
      let pr := hasAlreadyEngaged now cand.id "like" st.engagedThreads
      if pr.1 then (false, { st with engagedThreads := pr.2 })
      else if callOk then
        (false,
          { counters := { st.counters with
              likes := { st.counters.likes with count := st.counters.likes.count + 1 } }
            engagedThreads := recordEngagement now cand.id "like" cand.author pr.2 })
      else (true, { st with engagedThreads := pr.2 })
  else if dec.action = "repost" then
    if cfg.maxRepostsPerHour ≤ st.counters.reposts.count then (false, st)
    else
      let pr := hasAlreadyEngaged now cand.id "repost" st.engagedThreads
      if pr.1 then (false, { st with engagedThreads := pr.2 })
      else if callOk then
        (false,
          { counters := { st.counters with
              reposts := { st.counters.reposts with count := st.counters.reposts.count + 1 } }
            engagedThreads := recordEngagement now cand.id "repost" cand.author pr.2 })
      else (true, { st with engagedThreads := pr.2 })
  else if dec.action = "reply" then
    if cfg.maxRepliesPerHour ≤ st.counters.replies.count then (false, st)
    else
      let pr := hasAlreadyEngaged now cand.id "reply" st.engagedThreads
      if pr.1 then (false, { st with engagedThreads := pr.2 })
      else if dec.replyDraft.getD "" = "" then (false, { st with engagedThreads := pr.2 })
      else if callOk then
        (false,
          { counters := { st.counters with
              replies := { st.counters.replies with count := st.counters.replies.count + 1 } }
            engagedThreads := recordEngagement now cand.id "reply" cand.author pr.2 })
      else (true, { st with engagedThreads := pr.2 })
  else if dec.action = "follow" then
    if cfg.maxFollowsPerHour ≤ st.counters.follows.count then (false, st)
    else
      let key := "user:" ++ cand.author.toLower
      let pr := hasAlreadyEngaged now key "follow" st.engagedThreads
      if pr.1 then (false, { st with engagedThreads := pr.2 })
      else if callOk then
        (false,
          { counters := { st.counters with
              follows := { st.counters.follows with count := st.counters.follows.count + 1 } }
            engagedThreads := recordEngagement now key "follow" cand.author pr.2 })
      else (true, { st with engagedThreads := pr.2 })
  else if dec.action = "quote" then
    if cfg.maxRepostsPerHour ≤ st.counters.reposts.count then (false, st)
    else
      let pr := hasAlreadyEngaged now cand.id "quote" st.engagedThreads
      if pr.1 then (false, { st with engagedThreads := pr.2 })
      else if dec.replyDraft.getD "" = "" then (false, { st with engagedThreads := pr.2 })
      else if callOk then
        (false,
          { counters := { st.counters with
              reposts := { st.counters.reposts with count := st.counters.reposts.count + 1 } }
            engagedThreads := recordEngagement now cand.id "quote" cand.author pr.2 })
      else (true, { st with engagedThreads := pr.2 })
  else (false, st)

/-- One candidate of a pass: the candidate, the oracle's decision (`none`
when `evaluateEngagementCandidate` failed or returned malformed output),
and whether the platform call for it would succeed. -/
abbrev PassItem := Candidate × Option EngagementDecision × Bool

/-- `runEngagementPass()` loop (lines 792–815).  Per candidate:
`exceededEngagementBudget()` (resetting lapsed windows) and `break` when
all budgets are exhausted; evaluate the candidate (a `null`/`"none"`
decision is `continue`); otherwise `await executeEngagementDecision` —
which is NOT wrapped in a try/catch, so a thrown platform call aborts the
remaining loop iterations (the exception is only caught by the scheduler
wrapper around the whole pass).  Returns (pass threw, final state, ids of
the candidates that were evaluated, in order). -/
def runEngagementPass (cfg : EngagementConfig) (now : ℤ) :
    List PassItem → EngagementState → Bool × EngagementState × List String
  | [], st => (false, st, [])
  | (cand, odec, callOk) :: rest, st =>
    let bc := exceededEngagementBudget cfg now st.counters
    let st1 : EngagementState := { st with counters := bc.2 }
    if bc.1 then (false, st1, [])
    else
      match odec with
      | none =>
        let r := runEngagementPass cfg now rest st1
        (r.1, r.2.1, cand.id :: r.2.2)
      | some dec =>
        if dec.action = "none" then
          let r := runEngagementPass cfg now rest st1
          (r.1, r.2.1, cand.id :: r.2.2)
        else
          let ex := executeEngagementDecision cfg now callOk cand dec st1
          if ex.1 then (true, ex.2, [cand.id])
          else
            let r := runEngagementPass cfg now rest ex.2
            (r.1, r.2.1, cand.id :: r.2.2)

/-! ### Ledger lemmas (shared) -/

/-- Number of ledger entries stored under a key. -/
def countKey (k : String) (m : EngagedLedger) : ℕ :=
  (m.filter (fun p => decide (p.1 = k))).length

lemma mapSet_length (k : String) (v : EngagementRecord) (m : EngagedLedger) :
    (mapSet k v m).length ≤ m.length + 1 := by
  induction m with
  | nil => simp [mapSet]
  | cons p rest ih =>
    obtain ⟨k', v'⟩ := p
    unfold mapSet
    by_cases h : k' = k
    · rw [if_pos h]
      simp
    · rw [if_neg h]
      simpa using Nat.succ_le_succ ih

lemma mapGet_mapSet_self (k : String) (v : EngagementRecord) (m : EngagedLedger) :
    mapGet k (mapSet k v m) = some v := by
  induction m with
  | nil => simp [mapSet, mapGet]
  | cons p rest ih =>
    obtain ⟨k', v'⟩ := p
    unfold mapSet
    by_cases h : k' = k
    · rw [if_pos h]
      simp [mapGet]
    · rw [if_neg h]
      unfold mapGet
      rw [if_neg h]
      exact ih

lemma countKey_nil (k : String) : countKey k [] = 0 := rfl

lemma countKey_cons (k k' : String) (v' : EngagementRecord) (rest : EngagedLedger) :
    countKey k ((k', v') :: rest) = (if k' = k then 1 else 0) + countKey k rest := by
  unfold countKey
  rw [List.filter_cons]
  by_cases h : k' = k
  · simp [h]
    omega
  · simp [h]

lemma countKey_mapSet (k : String) (v : EngagementRecord) (m : EngagedLedger)
    (h : countKey k m ≤ 1) : countKey k (mapSet k v m) = 1 := by
  induction m with
  | nil => simp [mapSet, countKey]
  | cons p rest ih =>
    obtain ⟨k', v'⟩ := p
    unfold mapSet
    by_cases hk : k' = k
    · rw [if_pos hk]
      rw [countKey_cons] at h ⊢
      rw [if_pos hk] at h
      rw [if_pos rfl]
      omega
    · rw [if_neg hk]
      rw [countKey_cons] at h ⊢
      rw [if_neg hk] at h ⊢
      rw [ih (by omega)]

lemma recordEngagement_eq_mapSet (now : ℤ) (t a auth : String) (m : EngagedLedger)
    (h : m.length ≤ 999) :
    recordEngagement now t a auth m = mapSet (t ++ ":" ++ a) ⟨a, now, auth⟩ m := by
  unfold recordEngagement
  rw [if_neg]
  have := mapSet_length (t ++ ":" ++ a) ⟨a, now, auth⟩ m
  omega

lemma hasAlreadyEngaged_of_fresh (now : ℤ) (t a : String) (m : EngagedLedger)
    (r : EngagementRecord) (hget : mapGet (t ++ ":" ++ a) m = some r)
    (hage : ¬ engagementMaxAgeMs < now - r.timestamp) :
    hasAlreadyEngaged now t a m = (true, m) := by
  unfold hasAlreadyEngaged
  rw [hget]
  simp [hage]

/-! ### Claim C4 — recording is NOT insert-only -/

/-- Claim C4, counterexample.  Recording the same `(targetId, kind)` key a
second time at a later timestamp is not a no-op: `recordEngagement` uses
`Map.set`, which overwrites the stored record, so the ledger after the
second call differs from the ledger after the first (the timestamp has
been replaced). -/
theorem record_twice_not_noop :
    recordEngagement 3600000 "t1" "like" "alice"
        (recordEngagement 0 "t1" "like" "alice" [])
      ≠ recordEngagement 0 "t1" "like" "alice" [] := by
  decide

/-- Claim C4, amended.  Recording a key that already has a record
overwrites the stored timestamp and metadata (last write wins); it still
leaves exactly one record for the key, and `hasAlreadyEngaged` is true
after either call.  (The bounds keep the >1000-entry cleanup sweep of
`recordEngagement` out of play and say the key is a genuine map key —
at most one entry.) -/
theorem record_twice_last_write_wins (now now' : ℤ) (t a auth auth' : String)
    (m : EngagedLedger) (hlen : m.length ≤ 998)
    (hcount : countKey (t ++ ":" ++ a) m ≤ 1) :
    mapGet (t ++ ":" ++ a)
        (recordEngagement now' t a auth' (recordEngagement now t a auth m))
      = some ⟨a, now', auth'⟩
    ∧ countKey (t ++ ":" ++ a)
        (recordEngagement now' t a auth' (recordEngagement now t a auth m)) = 1
    ∧ (hasAlreadyEngaged now t a (recordEngagement now t a auth m)).1 = true
    ∧ (hasAlreadyEngaged now' t a
        (recordEngagement now' t a auth' (recordEngagement now t a auth m))).1 = true := by
  have h1 : recordEngagement now t a auth m = mapSet (t ++ ":" ++ a) ⟨a, now, auth⟩ m :=
    recordEngagement_eq_mapSet now t a auth m (by omega)
  have hlen1 : (recordEngagement now t a auth m).length ≤ 999 := by
    rw [h1]
    have := mapSet_length (t ++ ":" ++ a) ⟨a, now, auth⟩ m
    omega
  have h2 : recordEngagement now' t a auth' (recordEngagement now t a auth m)
      = mapSet (t ++ ":" ++ a) ⟨a, now', auth'⟩ (recordEngagement now t a auth m) :=
    recordEngagement_eq_mapSet now' t a auth' _ hlen1
  have hget2 : mapGet (t ++ ":" ++ a)
      (recordEngagement now' t a auth' (recordEngagement now t a auth m))
      = some ⟨a, now', auth'⟩ := by
    rw [h2]
    exact mapGet_mapSet_self _ _ _
  have hget1 : mapGet (t ++ ":" ++ a) (recordEngagement now t a auth m)
      = some ⟨a, now, auth⟩ := by
    rw [h1]
    exact mapGet_mapSet_self _ _ _
  refine ⟨hget2, ?_, ?_, ?_⟩
  · rw [h2, h1]
    refine countKey_mapSet _ _ _ ?_
    rw [← h1]
    rw [h1]
    have := countKey_mapSet (t ++ ":" ++ a) (⟨a, now, auth⟩ : EngagementRecord) m hcount
    omega
  · rw [hasAlreadyEngaged_of_fresh now t a _ ⟨a, now, auth⟩ hget1 (by
      simp only [sub_self]
      norm_num [engagementMaxAgeMs])]
  · rw [hasAlreadyEngaged_of_fresh now' t a _ ⟨a, now', auth'⟩ hget2 (by
      simp only [sub_self]
      norm_num [engagementMaxAgeMs])]

/-- Witness for the amended C4 theorem at a concrete instance: key
`("t1","like")` recorded at time `0` and again at time `3600000` starting
from the empty ledger. -/
theorem record_twice_last_write_wins_witness :
    (([] : EngagedLedger).length ≤ 998 ∧ countKey ("t1" ++ ":" ++ "like") [] ≤ 1)
    ∧ (mapGet ("t1" ++ ":" ++ "like")
          (recordEngagement 3600000 "t1" "like" "bob"
            (recordEngagement 0 "t1" "like" "alice" []))
        = some ⟨"like", 3600000, "bob"⟩
      ∧ countKey ("t1" ++ ":" ++ "like")
          (recordEngagement 3600000 "t1" "like" "bob"
            (recordEngagement 0 "t1" "like" "alice" [])) = 1
      ∧ (hasAlreadyEngaged 0 "t1" "like" (recordEngagement 0 "t1" "like" "alice" [])).1 = true
      ∧ (hasAlreadyEngaged 3600000 "t1" "like"
          (recordEngagement 3600000 "t1" "like" "bob"
            (recordEngagement 0 "t1" "like" "alice" []))).1 = true) :=
  ⟨⟨by decide, by decide⟩,
    record_twice_last_write_wins 0 3600000 "t1" "like" "alice" "bob" []
      (by decide) (by decide)⟩

/-! ### Shared concrete fixtures for the engagement claims -/

def cfgOne : EngagementConfig :=
  { maxLikesPerHour := 5
    maxRepostsPerHour := 5
    maxRepliesPerHour := 5
    maxFollowsPerHour := 5 }

def counters0 : EngagementCounters :=
  { likes := ⟨0, 0⟩, reposts := ⟨0, 0⟩, replies := ⟨0, 0⟩, follows := ⟨0, 0⟩ }

def st0 : EngagementState := { counters := counters0, engagedThreads := [] }

def likeDecision : EngagementDecision :=
  { action := "like", rationale := "useful signal", replyDraft := none }

def candT1 : Candidate := { id := "t1", author := "alice" }

def candT2 : Candidate := { id := "t2", author := "bob" }

/-! ### Claim C2 — a platform-action failure aborts the pass -/

lemma hasAlreadyEngaged_of_none (now : ℤ) (t a : String) (m : EngagedLedger)
    (hget : mapGet (t ++ ":" ++ a) m = none) :
    hasAlreadyEngaged now t a m = (false, m) := by
  unfold hasAlreadyEngaged
  rw [hget]

lemma execute_like_throw (cfg : EngagementConfig) (now : ℤ) (cand : Candidate)
    (r : String) (d : Option String) (st : EngagementState)
    (hbudget : st.counters.likes.count < cfg.maxLikesPerHour)
    (hdup : (hasAlreadyEngaged now cand.id "like" st.engagedThreads).1 = false) :
    executeEngagementDecision cfg now false cand ⟨"like", r, d⟩ st
      = (true, { st with
          engagedThreads := (hasAlreadyEngaged now cand.id "like" st.engagedThreads).2 }) := by
  simp [executeEngagementDecision, hdup, not_le.mpr hbudget]

/-- Claim C2, counterexample.  Two candidates, both decided `like`, first
platform call throws: the pass aborts with the exception (first
component `true`) after evaluating only the first candidate — the second
candidate is never evaluated, contradicting "the loop proceeds to
evaluate the remaining candidates". -/
theorem pass_aborts_on_platform_failure :
    (runEngagementPass cfgOne 0
        [(candT1, some likeDecision, false), (candT2, some likeDecision, true)] st0).1 = true
    ∧ (runEngagementPass cfgOne 0
        [(candT1, some likeDecision, false), (candT2, some likeDecision, true)] st0).2.2
      = ["t1"] := by
  decide

/-- Claim C2, amended.  Within `runEngagementPass`, an oracle failure for
one candidate (a `null`/malformed decision) IS isolated: the loop records
the candidate as evaluated and proceeds with the remaining candidates.
But a platform-action failure is not: `executeEngagementDecision` is
awaited without a try/catch, so when the client call for a like throws
(budget open, no dedup hit), the pass ends with the exception and only
the candidates up to and including the failing one were evaluated. -/
theorem pass_failure_semantics (cfg : EngagementConfig) (now : ℤ) (cand : Candidate)
    (rest : List PassItem) (st : EngagementState)
    (hb : (exceededEngagementBudget cfg now st.counters).1 = false) :
    (∀ ok : Bool,
      runEngagementPass cfg now ((cand, none, ok) :: rest) st
        = ((runEngagementPass cfg now rest
              { st with counters := (exceededEngagementBudget cfg now st.counters).2 }).1,
           (runEngagementPass cfg now rest
              { st with counters := (exceededEngagementBudget cfg now st.counters).2 }).2.1,
           cand.id ::
             (runEngagementPass cfg now rest
                { st with counters := (exceededEngagementBudget cfg now st.counters).2 }).2.2))
    ∧ (∀ (r : String) (d : Option String),
        (exceededEngagementBudget cfg now st.counters).2.likes.count < cfg.maxLikesPerHour →
        (hasAlreadyEngaged now cand.id "like" st.engagedThreads).1 = false →
        (runEngagementPass cfg now ((cand, some ⟨"like", r, d⟩, false) :: rest) st).1 = true
        ∧ (runEngagementPass cfg now ((cand, some ⟨"like", r, d⟩, false) :: rest) st).2.2
            = [cand.id]) := by
  constructor
  · intro ok
    simp [runEngagementPass, hb]
  · intro r d hbudget hdup
    have hex := execute_like_throw cfg now cand r d
      { st with counters := (exceededEngagementBudget cfg now st.counters).2 }
      hbudget hdup
    constructor
    · simp [runEngagementPass, hb, hex]
    · simp [runEngagementPass, hb, hex]

/-- Witness for the amended C2 theorem: single like candidate whose
platform call throws, starting from fresh counters and an empty ledger. -/
theorem pass_failure_semantics_witness :
    (exceededEngagementBudget cfgOne 0 st0.counters).1 = false
    ∧ ((exceededEngagementBudget cfgOne 0 st0.counters).2.likes.count
          < cfgOne.maxLikesPerHour
        ∧ (hasAlreadyEngaged 0 candT1.id "like" st0.engagedThreads).1 = false)
    ∧ ((runEngagementPass cfgOne 0 [(candT1, some ⟨"like", "r", none⟩, false)] st0).1 = true
        ∧ (runEngagementPass cfgOne 0
            [(candT1, some ⟨"like", "r", none⟩, false)] st0).2.2 = [candT1.id]) :=
  ⟨by decide, ⟨by decide, by decide⟩,
    (pass_failure_semantics cfgOne 0 candT1 [] st0 (by decide)).2 "r" none
      (by decide) (by decide)⟩

/-! ### Claim C9 — window reset re-grants an exhausted budget -/

lemma execute_like_success (cfg : EngagementConfig) (now : ℤ) (cand : Candidate)
    (r : String) (d : Option String) (st : EngagementState)
    (hbudget : st.counters.likes.count < cfg.maxLikesPerHour)
    (hdup : (hasAlreadyEngaged now cand.id "like" st.engagedThreads).1 = false) :
    executeEngagementDecision cfg now true cand ⟨"like", r, d⟩ st
      = (false,
         { counters := { st.counters with
             likes := { st.counters.likes with count := st.counters.likes.count + 1 } }
           engagedThreads := recordEngagement now cand.id "like" cand.author
             (hasAlreadyEngaged now cand.id "like" st.engagedThreads).2 }) := by
  simp [executeEngagementDecision, hdup, not_le.mpr hbudget]

/-- Claim C9, confirmed.  Once the like window boundary has passed
(`resetAt < now`), the next pass iteration's `exceededEngagementBudget`
call resets the like counter to `{count := 0, resetAt := now + 1h}`, and
the like is then granted even though the prior window was fully exhausted
(`count = ceiling`): the pass does not throw, the platform call runs, the
counter ends at `1` in the new window, and the dedup record is written. -/
theorem budget_reset_grants_after_window (cfg : EngagementConfig) (now : ℤ)
    (st : EngagementState) (cand : Candidate) (r : String)
    (hwin : st.counters.likes.resetAt < now)
    (_hexh : st.counters.likes.count = cfg.maxLikesPerHour)
    (hpos : 0 < cfg.maxLikesPerHour)
    (hnodup : mapGet (cand.id ++ ":" ++ "like") st.engagedThreads = none)
    (hlen : st.engagedThreads.length ≤ 999) :
    (exceededEngagementBudget cfg now st.counters).2.likes
        = { count := 0, resetAt := now + 3600000 }
    ∧ (runEngagementPass cfg now [(cand, some ⟨"like", r, none⟩, true)] st).1 = false
    ∧ (runEngagementPass cfg now
          [(cand, some ⟨"like", r, none⟩, true)] st).2.1.counters.likes
        = { count := 1, resetAt := now + 3600000 }
    ∧ mapGet (cand.id ++ ":" ++ "like")
        (runEngagementPass cfg now
          [(cand, some ⟨"like", r, none⟩, true)] st).2.1.engagedThreads
      = some ⟨"like", now, cand.author⟩ := by
  have hreset : (exceededEngagementBudget cfg now st.counters).2.likes
      = { count := 0, resetAt := now + 3600000 } := by
    show resetIfNeeded now st.counters.likes = _
    unfold resetIfNeeded
    rw [if_pos hwin]
  have hb : (exceededEngagementBudget cfg now st.counters).1 = false := by
    show (decide (cfg.maxLikesPerHour ≤ (exceededEngagementBudget cfg now st.counters).2.likes.count)
        && _ && _ && _) = false
    rw [hreset]
    simp only [Bool.and_eq_false_imp, decide_eq_true_eq]
    intro hle
    exact absurd hle (by simp; omega)
  set st1 : EngagementState :=
    { st with counters := (exceededEngagementBudget cfg now st.counters).2 } with hst1
  have hdup : (hasAlreadyEngaged now cand.id "like" st1.engagedThreads).1 = false := by
    rw [hasAlreadyEngaged_of_none now cand.id "like" st1.engagedThreads hnodup]
  have hbudget : st1.counters.likes.count < cfg.maxLikesPerHour := by
    show (exceededEngagementBudget cfg now st.counters).2.likes.count < cfg.maxLikesPerHour
    rw [hreset]
    exact hpos
  have hex := execute_like_success cfg now cand r none st1 hbudget hdup
  have hpr : (hasAlreadyEngaged now cand.id "like" st1.engagedThreads).2
      = st.engagedThreads := by
    rw [hasAlreadyEngaged_of_none now cand.id "like" st1.engagedThreads hnodup]
  have hrec : recordEngagement now cand.id "like" cand.author st.engagedThreads
      = mapSet (cand.id ++ ":" ++ "like") ⟨"like", now, cand.author⟩ st.engagedThreads :=
    recordEngagement_eq_mapSet now cand.id "like" cand.author st.engagedThreads hlen
  refine ⟨hreset, ?_, ?_, ?_⟩
  · simp [runEngagementPass, hb, hex]
  · simp only [runEngagementPass, hb]
    simp [hex, hreset]
  · simp only [runEngagementPass, hb]
    simp [hex, hpr, hrec, mapGet_mapSet_self]

/-- Witness for C9: like budget of 1, counter exhausted at `count = 1`
with `resetAt = 10` and the attempt at `now = 20`, empty ledger. -/
theorem budget_reset_grants_after_window_witness :
    ((⟨⟨⟨1, 10⟩, ⟨0, 10⟩, ⟨0, 10⟩, ⟨0, 10⟩⟩, []⟩ : EngagementState).counters.likes.resetAt < 20
      ∧ (⟨⟨⟨1, 10⟩, ⟨0, 10⟩, ⟨0, 10⟩, ⟨0, 10⟩⟩, []⟩ : EngagementState).counters.likes.count
          = (⟨1, 1, 1, 1⟩ : EngagementConfig).maxLikesPerHour
      ∧ 0 < (⟨1, 1, 1, 1⟩ : EngagementConfig).maxLikesPerHour)
    ∧ ((exceededEngagementBudget ⟨1, 1, 1, 1⟩ 20
          (⟨⟨⟨1, 10⟩, ⟨0, 10⟩, ⟨0, 10⟩, ⟨0, 10⟩⟩, []⟩ : EngagementState).counters).2.likes
        = { count := 0, resetAt := 20 + 3600000 }
      ∧ (runEngagementPass ⟨1, 1, 1, 1⟩ 20 [(candT1, some ⟨"like", "r", none⟩, true)]
          ⟨⟨⟨1, 10⟩, ⟨0, 10⟩, ⟨0, 10⟩, ⟨0, 10⟩⟩, []⟩).1 = false
      ∧ (runEngagementPass ⟨1, 1, 1, 1⟩ 20 [(candT1, some ⟨"like", "r", none⟩, true)]
          ⟨⟨⟨1, 10⟩, ⟨0, 10⟩, ⟨0, 10⟩, ⟨0, 10⟩⟩, []⟩).2.1.counters.likes
        = { count := 1, resetAt := 20 + 3600000 }
      ∧ mapGet (candT1.id ++ ":" ++ "like")
          (runEngagementPass ⟨1, 1, 1, 1⟩ 20 [(candT1, some ⟨"like", "r", none⟩, true)]
            ⟨⟨⟨1, 10⟩, ⟨0, 10⟩, ⟨0, 10⟩, ⟨0, 10⟩⟩, []⟩).2.1.engagedThreads
        = some ⟨"like", 20, candT1.author⟩) :=
  ⟨⟨by decide, by decide, by decide⟩,
    budget_reset_grants_after_window ⟨1, 1, 1, 1⟩ 20
      ⟨⟨⟨1, 10⟩, ⟨0, 10⟩, ⟨0, 10⟩, ⟨0, 10⟩⟩, []⟩ candT1 "r"
      (by decide) (by decide) (by decide) (by decide) (by decide)⟩

/-! ### Claim C7 — the counters never exceed their ceilings -/

/-- Every counter is at or below its configured hourly ceiling. -/
def countersWithinBudget (cfg : EngagementConfig) (c : EngagementCounters) : Prop :=
  c.likes.count ≤ cfg.maxLikesPerHour
    ∧ c.reposts.count ≤ cfg.maxRepostsPerHour
    ∧ c.replies.count ≤ cfg.maxRepliesPerHour
    ∧ c.follows.count ≤ cfg.maxFollowsPerHour

/-- `now` is still inside every counter's current window, so no reset
fires during the pass. -/
def inWindow (now : ℤ) (c : EngagementCounters) : Prop :=
  now ≤ c.likes.resetAt ∧ now ≤ c.reposts.resetAt
    ∧ now ≤ c.replies.resetAt ∧ now ≤ c.follows.resetAt

lemma exceeded_preserves_budget (cfg : EngagementConfig) (now : ℤ)
    (c : EngagementCounters) (h : countersWithinBudget cfg c) :
    countersWithinBudget cfg (exceededEngagementBudget cfg now c).2 := by
  obtain ⟨h1, h2, h3, h4⟩ := h
  show countersWithinBudget cfg
    { likes := resetIfNeeded now c.likes
      reposts := resetIfNeeded now c.reposts
      replies := resetIfNeeded now c.replies
      follows := resetIfNeeded now c.follows }
  unfold countersWithinBudget resetIfNeeded
  split_ifs <;> simp_all

lemma exceeded_inWindow_eq (cfg : EngagementConfig) (now : ℤ)
    (c : EngagementCounters) (h : inWindow now c) :
    (exceededEngagementBudget cfg now c).2 = c := by
  obtain ⟨h1, h2, h3, h4⟩ := h
  show ({ likes := resetIfNeeded now c.likes
          reposts := resetIfNeeded now c.reposts
          replies := resetIfNeeded now c.replies
          follows := resetIfNeeded now c.follows } : EngagementCounters) = c
  unfold resetIfNeeded
  rw [if_neg (not_lt.mpr h1), if_neg (not_lt.mpr h2),
    if_neg (not_lt.mpr h3), if_neg (not_lt.mpr h4)]

set_option maxHeartbeats 1000000 in
lemma execute_preserves_budget (cfg : EngagementConfig) (now : ℤ) (ok : Bool)
    (cand : Candidate) (dec : EngagementDecision) (st : EngagementState)
    (h : countersWithinBudget cfg st.counters) :
    countersWithinBudget cfg
      (executeEngagementDecision cfg now ok cand dec st).2.counters := by
  obtain ⟨h1, h2, h3, h4⟩ := h
  unfold countersWithinBudget
  simp only [executeEngagementDecision]
  split_ifs <;> simp_all <;> omega

set_option maxHeartbeats 1000000 in
lemma execute_monotone (cfg : EngagementConfig) (now : ℤ) (ok : Bool)
    (cand : Candidate) (dec : EngagementDecision) (st : EngagementState) :
    (st.counters.likes.count
        ≤ (executeEngagementDecision cfg now ok cand dec st).2.counters.likes.count
      ∧ st.counters.reposts.count
        ≤ (executeEngagementDecision cfg now ok cand dec st).2.counters.reposts.count
      ∧ st.counters.replies.count
        ≤ (executeEngagementDecision cfg now ok cand dec st).2.counters.replies.count
      ∧ st.counters.follows.count
        ≤ (executeEngagementDecision cfg now ok cand dec st).2.counters.follows.count)
    ∧ ((executeEngagementDecision cfg now ok cand dec st).2.counters.likes.resetAt
          = st.counters.likes.resetAt
      ∧ (executeEngagementDecision cfg now ok cand dec st).2.counters.reposts.resetAt
          = st.counters.reposts.resetAt
      ∧ (executeEngagementDecision cfg now ok cand dec st).2.counters.replies.resetAt
          = st.counters.replies.resetAt
      ∧ (executeEngagementDecision cfg now ok cand dec st).2.counters.follows.resetAt
          = st.counters.follows.resetAt) := by
  simp only [executeEngagementDecision]
  split_ifs <;> simp

/-- Claim C7, confirmed.  For every sequence of pass items: if every
counter starts at or below its ceiling, then after the pass every counter
is still at or below its ceiling — each execution branch is gated by a
`count >= ceiling` check before its increment, and `quote` is gated by and
increments the reposts counter.  Moreover, while `now` is inside every
window (no reset fires), counts only grow, so the number of granted
executions of a kind during the pass (`final − initial`) is at most
`ceiling − initial`: at most the ceiling per window. -/
theorem budget_never_exceeds_ceiling (cfg : EngagementConfig) (now : ℤ)
    (items : List PassItem) (st : EngagementState)
    (h : countersWithinBudget cfg st.counters) :
    countersWithinBudget cfg (runEngagementPass cfg now items st).2.1.counters
    ∧ (inWindow now st.counters →
        st.counters.likes.count
            ≤ (runEngagementPass cfg now items st).2.1.counters.likes.count
        ∧ st.counters.reposts.count
            ≤ (runEngagementPass cfg now items st).2.1.counters.reposts.count
        ∧ st.counters.replies.count
            ≤ (runEngagementPass cfg now items st).2.1.counters.replies.count
        ∧ st.counters.follows.count
            ≤ (runEngagementPass cfg now items st).2.1.counters.follows.count) := by
  induction items generalizing st with
  | nil => exact ⟨h, fun _ => ⟨le_refl _, le_refl _, le_refl _, le_refl _⟩⟩
  | cons item rest ih =>
    obtain ⟨cand, odec, callOk⟩ := item
    have hb1 : countersWithinBudget cfg (exceededEngagementBudget cfg now st.counters).2 :=
      exceeded_preserves_budget cfg now st.counters h
    simp only [runEngagementPass]
    cases hbc : (exceededEngagementBudget cfg now st.counters).1 with
    | true =>
      simp only [hbc, if_true]
      refine ⟨hb1, fun hw => ?_⟩
      rw [exceeded_inWindow_eq cfg now st.counters hw]
      exact ⟨le_refl _, le_refl _, le_refl _, le_refl _⟩
    | false =>
      simp only [hbc, Bool.false_eq_true, if_false]
      cases odec with
      | none =>
        have hrec := ih { st with counters := (exceededEngagementBudget cfg now st.counters).2 } hb1
        refine ⟨hrec.1, fun hw => ?_⟩
        have heq := exceeded_inWindow_eq cfg now st.counters hw
        have hw1 : inWindow now
            ({ st with counters := (exceededEngagementBudget cfg now st.counters).2 }
              : EngagementState).counters := by
          show inWindow now (exceededEngagementBudget cfg now st.counters).2
          rw [heq]; exact hw
        have := hrec.2 hw1
        simpa [heq] using this
      | some dec =>
        by_cases hnone : dec.action = "none"
        · simp only [hnone, if_pos rfl]
          have hrec := ih { st with counters := (exceededEngagementBudget cfg now st.counters).2 } hb1
          refine ⟨hrec.1, fun hw => ?_⟩
          have heq := exceeded_inWindow_eq cfg now st.counters hw
          have hw1 : inWindow now
              ({ st with counters := (exceededEngagementBudget cfg now st.counters).2 }
                : EngagementState).counters := by
            show inWindow now (exceededEngagementBudget cfg now st.counters).2
            rw [heq]; exact hw
          have := hrec.2 hw1
          simpa [heq] using this
        · simp only [if_neg hnone]
          set st1 : EngagementState :=
            { st with counters := (exceededEngagementBudget cfg now st.counters).2 } with hst1
          set ex := executeEngagementDecision cfg now callOk cand dec st1 with hex
          have hb2 : countersWithinBudget cfg ex.2.counters :=
            execute_preserves_budget cfg now callOk cand dec st1 hb1
          have hmono := execute_monotone cfg now callOk cand dec st1
          cases hthrew : ex.1 with
          | true =>
            simp only [hthrew, if_true]
            refine ⟨hb2, fun hw => ?_⟩
            have heq : st1.counters = st.counters := by
              show (exceededEngagementBudget cfg now st.counters).2 = st.counters
              exact exceeded_inWindow_eq cfg now st.counters hw
            obtain ⟨⟨m1, m2, m3, m4⟩, _⟩ := hmono
            rw [heq] at m1 m2 m3 m4
            exact ⟨m1, m2, m3, m4⟩
          | false =>
            simp only [hthrew, Bool.false_eq_true, if_false]
            have hrec := ih ex.2 hb2
            refine ⟨hrec.1, fun hw => ?_⟩
            have heq : st1.counters = st.counters := by
              show (exceededEngagementBudget cfg now st.counters).2 = st.counters
              exact exceeded_inWindow_eq cfg now st.counters hw
            obtain ⟨⟨m1, m2, m3, m4⟩, ⟨e1, e2, e3, e4⟩⟩ := hmono
            have hw2 : inWindow now ex.2.counters := by
              obtain ⟨w1, w2, w3, w4⟩ := hw
              rw [← heq] at w1 w2 w3 w4
              exact ⟨by rw [e1]; exact w1, by rw [e2]; exact w2,
                by rw [e3]; exact w3, by rw [e4]; exact w4⟩
            obtain ⟨r1, r2, r3, r4⟩ := hrec.2 hw2
            rw [heq] at m1 m2 m3 m4
            exact ⟨le_trans m1 r1, le_trans m2 r2, le_trans m3 r3, le_trans m4 r4⟩

/-- Witness for C7: ceilings of one, a like and a quote granted from fresh
counters, all counts stay at or below the ceilings. -/
theorem budget_never_exceeds_ceiling_witness :
    countersWithinBudget cfgOne st0.counters
    ∧ (countersWithinBudget cfgOne
        (runEngagementPass cfgOne 0
          [(candT1, some likeDecision, true), (candT2, some likeDecision, true)] st0).2.1.counters
      ∧ (inWindow 0 st0.counters →
          st0.counters.likes.count
              ≤ (runEngagementPass cfgOne 0
                  [(candT1, some likeDecision, true), (candT2, some likeDecision, true)]
                  st0).2.1.counters.likes.count
          ∧ st0.counters.reposts.count
              ≤ (runEngagementPass cfgOne 0
                  [(candT1, some likeDecision, true), (candT2, some likeDecision, true)]
                  st0).2.1.counters.reposts.count
          ∧ st0.counters.replies.count
              ≤ (runEngagementPass cfgOne 0
                  [(candT1, some likeDecision, true), (candT2, some likeDecision, true)]
                  st0).2.1.counters.replies.count
          ∧ st0.counters.follows.count
              ≤ (runEngagementPass cfgOne 0
                  [(candT1, some likeDecision, true), (candT2, some likeDecision, true)]
                  st0).2.1.counters.follows.count)) :=
  ⟨⟨by decide, by decide, by decide, by decide⟩,
    budget_never_exceeds_ceiling cfgOne 0
      [(candT1, some likeDecision, true), (candT2, some likeDecision, true)] st0
      ⟨by decide, by decide, by decide, by decide⟩⟩

/-! ### Claim C10 — what a thrown platform call leaves behind -/

lemma hasAlreadyEngaged_sublist (now : ℤ) (t a : String) (m : EngagedLedger) :
    (hasAlreadyEngaged now t a m).2.Sublist m := by
  unfold hasAlreadyEngaged
  cases hget : mapGet (t ++ ":" ++ a) m with
  | none => exact List.Sublist.refl m
  | some r =>
    show (if engagementMaxAgeMs < now - r.timestamp then
        (false, mapDelete (t ++ ":" ++ a) m) else (true, m)).2.Sublist m
    by_cases hage : engagementMaxAgeMs < now - r.timestamp
    · rw [if_pos hage]
      exact List.eraseP_sublist m
    · rw [if_neg hage]

/-- A ledger state with a 48h-expired record for `(t1, like)`, and fresh
counters inside their windows at `now = 172800001`. -/
def expiredEntryState : EngagementState :=
  { counters :=
      { likes := ⟨0, 172800002⟩, reposts := ⟨0, 172800002⟩
        replies := ⟨0, 172800002⟩, follows := ⟨0, 172800002⟩ }
    engagedThreads := [("t1:like", ⟨"like", 0, "alice"⟩)] }

/-- Claim C10, counterexample.  When the platform call for a like throws,
the counter is left unchanged — but the engagement ledger is NOT always
left unchanged: the dedup pre-check (`hasAlreadyEngaged`) has already
lazily deleted that candidate's 48h-expired record, and that deletion
survives the throw.  Here `now − timestamp = 172800001 > 48h`, so after
the failing call the ledger lost its entry. -/
theorem throw_can_prune_expired_entry :
    (executeEngagementDecision cfgOne 172800001 false candT1 likeDecision
        expiredEntryState).1 = true
    ∧ (executeEngagementDecision cfgOne 172800001 false candT1 likeDecision
        expiredEntryState).2.counters = expiredEntryState.counters
    ∧ (executeEngagementDecision cfgOne 172800001 false candT1 likeDecision
        expiredEntryState).2.engagedThreads ≠ expiredEntryState.engagedThreads := by
  decide

set_option maxHeartbeats 1000000 in
/-- Claim C10, amended.  When the platform client call throws
(`callOk = false`), the counters are left exactly unchanged and nothing
is inserted into the ledger: the resulting ledger is a sublist of the
prior one — it can differ only by the dedup pre-check's lazy removal of
that candidate's expired record.  (Increment and `recordEngagement` sit
after the awaited call in every branch, so they run only on success.) -/
theorem throw_leaves_counters_and_inserts_nothing (cfg : EngagementConfig)
    (now : ℤ) (cand : Candidate) (dec : EngagementDecision) (st : EngagementState) :
    (executeEngagementDecision cfg now false cand dec st).2.counters = st.counters
    ∧ (executeEngagementDecision cfg now false cand dec st).2.engagedThreads.Sublist
        st.engagedThreads := by
  simp only [executeEngagementDecision, Bool.false_eq_true, if_false]
  split_ifs <;>
    first
      | exact ⟨rfl, List.Sublist.refl _⟩
      | exact ⟨rfl, hasAlreadyEngaged_sublist now cand.id "like" st.engagedThreads⟩
      | exact ⟨rfl, hasAlreadyEngaged_sublist now cand.id "repost" st.engagedThreads⟩
      | exact ⟨rfl, hasAlreadyEngaged_sublist now cand.id "reply" st.engagedThreads⟩
      | exact ⟨rfl, hasAlreadyEngaged_sublist now ("user:" ++ cand.author.toLower) "follow"
          st.engagedThreads⟩
      | exact ⟨rfl, hasAlreadyEngaged_sublist now cand.id "quote" st.engagedThreads⟩

/-! ### Claim C6 — the two dedup stores are disjoint

`ArenaMentionMonitorService` (mentionMonitor.ts) keeps its own in-memory
`processedMentions` and `repliedThreads` sets (lines 44–45); the
engagement engine's `engagedThreads` map lives in `ArenaService`.  There
is no shared ledger object between the two services. -/

/-- JS `Set.add`. -/
def setAdd (x : String) (s : List String) : List String :=
  if x ∈ s then s else x :: s

/-- The mention monitor's dedup state (mentionMonitor.ts lines 43–45). -/
structure MentionMonitorState where
  processedMentions : List String
  repliedThreads : List String
  deriving DecidableEq, Repr

/-- `markAsReplied(threadId, …)` in-memory effect (lines 613–615):
`this.repliedThreads.add(threadId)`. -/
def markAsReplied (threadId : String) (s : MentionMonitorState) : MentionMonitorState :=
  { s with repliedThreads := setAdd threadId s.repliedThreads }

/-- `hasRepliedToThread(threadId)` (lines 657–659). -/
def hasRepliedToThread (threadId : String) (s : MentionMonitorState) : Bool :=
  decide (threadId ∈ s.repliedThreads)

/-- The two services' dedup stores side by side, as they coexist in one
process. -/
structure CombinedDedupState where
  arena : EngagementState
  monitor : MentionMonitorState
  deriving DecidableEq, Repr

/-- The mention pipeline marking thread `t` replied (its only dedup
write after posting a reply). -/
def monitorMarkReplied (t : String) (s : CombinedDedupState) : CombinedDedupState :=
  { s with monitor := markAsReplied t s.monitor }

/-- The engagement engine recording a reply on thread `t` in its ledger. -/
def arenaRecordReply (now : ℤ) (t author : String) (s : CombinedDedupState) :
    CombinedDedupState :=
  { s with arena := { s.arena with
      engagedThreads := recordEngagement now t "reply" author s.arena.engagedThreads } }

def combined0 : CombinedDedupState :=
  { arena := st0, monitor := { processedMentions := [], repliedThreads := [] } }

/-- Claim C6, counterexample.  After the mention pipeline replies to
thread `T` and records it (`markAsReplied`), the engagement engine's
dedup check `hasAlreadyEngaged(T, "reply")` is still `false` — and
conversely, after the engagement engine records a reply on `T`, the
mention pipeline's `hasRepliedToThread T` is still `false`.  The two
components are NOT gated by one shared ledger. -/
theorem mention_and_engagement_ledgers_disjoint :
    (hasAlreadyEngaged 0 "T" "reply"
        (monitorMarkReplied "T" combined0).arena.engagedThreads).1 = false
    ∧ hasRepliedToThread "T" (monitorMarkReplied "T" combined0).monitor = true
    ∧ hasRepliedToThread "T" (arenaRecordReply 0 "T" "alice" combined0).monitor = false
    ∧ (hasAlreadyEngaged 0 "T" "reply"
        (arenaRecordReply 0 "T" "alice" combined0).arena.engagedThreads).1 = true := by
  decide

/-- Claim C6, amended.  Each pipeline is gated only by its own store:
`markAsReplied` changes only the monitor's `repliedThreads` (making the
monitor's own check true) and leaves the engagement ledger's
`hasAlreadyEngaged` result untouched; `recordEngagement` by the
engagement engine leaves the monitor's `hasRepliedToThread` untouched. -/
theorem dedup_stores_independent (s : CombinedDedupState) (t author : String)
    (now recNow : ℤ) :
    hasAlreadyEngaged now t "reply" (monitorMarkReplied t s).arena.engagedThreads
      = hasAlreadyEngaged now t "reply" s.arena.engagedThreads
    ∧ hasRepliedToThread t (arenaRecordReply recNow t author s).monitor
      = hasRepliedToThread t s.monitor
    ∧ hasRepliedToThread t (monitorMarkReplied t s).monitor = true := by
  refine ⟨rfl, rfl, ?_⟩
  unfold monitorMarkReplied markAsReplied hasRepliedToThread setAdd
  by_cases h : t ∈ s.monitor.repliedThreads
  · simp [h]
  · simp [h]

/-! ### Claim C5 — two different scheduling disciplines

`ArenaService`'s posting, discovery and engagement tasks all follow the
pattern of `scheduleNextPost` (lines 229–251): a one-shot `setTimeout`
whose callback awaits the body in a try/catch and re-arms the next
one-shot timer in the `finally` — so the next delay is armed only after
the invocation settles, and firing consumes the armed timer.  `stop()`
clears the timer and sets `stopping`, and `scheduleNext*` does not re-arm
once stopping.  The abstraction below counts armed one-shot timers and
in-flight invocations of ONE task; its transitions are exactly those code
events.

`ArenaMentionMonitorService.startMonitoring` (mentionMonitor.ts lines
94–128) instead uses `setInterval`: the interval fires on a fixed
wall-clock cadence whether or not a previous `scanMentions()` (an async
call that is not awaited by the interval callback) is still running. -/

structure TaskLoopState where
  armed : ℕ
  running : ℕ
  stopping : Bool
  deriving DecidableEq, Repr

/-- Events of the `setTimeout`-rearm discipline: `fire` consumes an armed
timer and starts the body; `settle` finishes the body (success or error,
the `finally` re-arms unless stopping); `stop` clears the pending timer
and sets `stopping`. -/
inductive ArenaTaskStep : TaskLoopState → TaskLoopState → Prop where
  | fire (a r : ℕ) (b : Bool) : ArenaTaskStep ⟨a + 1, r, b⟩ ⟨a, r + 1, b⟩
  | settle (a r : ℕ) (b : Bool) :
      ArenaTaskStep ⟨a, r + 1, b⟩ ⟨if b then a else a + 1, r, b⟩
  | stop (a r : ℕ) : ArenaTaskStep ⟨a, r, false⟩ ⟨0, r, true⟩

/-- State right after `initialize()` armed the first timer. -/
def arenaTaskInit : TaskLoopState := ⟨1, 0, false⟩

/-- Events of the `setInterval` discipline: `tick` fires on the wall
clock and launches a scan regardless of scans already in flight
(`scanMentions()` is not awaited); `settle` finishes one scan; `stop`
clears the interval. -/
structure IntervalTaskState where
  active : Bool
  running : ℕ
  deriving DecidableEq, Repr

inductive MentionIntervalStep : IntervalTaskState → IntervalTaskState → Prop where
  | tick (r : ℕ) : MentionIntervalStep ⟨true, r⟩ ⟨true, r + 1⟩
  | settle (b : Bool) (r : ℕ) : MentionIntervalStep ⟨b, r + 1⟩ ⟨b, r⟩
  | stop (r : ℕ) : MentionIntervalStep ⟨true, r⟩ ⟨false, r⟩

/-- State right after `startMonitoring()` armed the interval. -/
def mentionMonitorInit : IntervalTaskState := ⟨true, 0⟩

/-- Claim C5, counterexample.  In the mention scanner's `setInterval`
discipline, two ticks can fire before the first scan settles (the
interval does not wait for `scanMentions()`): the state with two scan
bodies in flight is reachable, so "at most one execution of the task's
body is in flight at a time" fails for the mention-scanning task. -/
theorem mention_scan_can_overlap :
    Relation.ReflTransGen MentionIntervalStep mentionMonitorInit ⟨true, 2⟩
    ∧ 1 < (⟨true, 2⟩ : IntervalTaskState).running :=
  ⟨Relation.ReflTransGen.tail
      (Relation.ReflTransGen.single (MentionIntervalStep.tick 0))
      (MentionIntervalStep.tick 1),
    by decide⟩

/-- Claim C5, amended.  For the `ArenaService` tasks (posting, discovery,
engagement), which re-arm a one-shot timer only in the `finally` after
the body settles, every reachable state has at most one invocation in
flight — in fact at most one armed timer plus in-flight invocation in
total.  The mention-scanning task does not follow this discipline (see
the counterexample): it runs on a fixed `setInterval` cadence and can
overlap itself. -/
theorem arena_task_single_flight (s : TaskLoopState)
    (h : Relation.ReflTransGen ArenaTaskStep arenaTaskInit s) :
    s.running ≤ 1 ∧ s.armed + s.running ≤ 1 := by
  have hsum : s.armed + s.running ≤ 1 := by
    induction h with
    | refl => decide
    | tail _hsteps step ih =>
      cases step with
      | fire a r b =>
        simp only at ih ⊢
        omega
      | settle a r b =>
        simp only at ih ⊢
        cases b <;> simp <;> omega
      | stop a r =>
        simp only at ih ⊢
        omega
  exact ⟨by omega, hsum⟩

/-- Witness for the amended C5 theorem: the state reached after the first
timer fires (one invocation in flight, no timer armed). -/
theorem arena_task_single_flight_witness :
    Relation.ReflTransGen ArenaTaskStep arenaTaskInit ⟨0, 1, false⟩
    ∧ ((⟨0, 1, false⟩ : TaskLoopState).running ≤ 1
        ∧ (⟨0, 1, false⟩ : TaskLoopState).armed + (⟨0, 1, false⟩ : TaskLoopState).running ≤ 1) :=
  ⟨Relation.ReflTransGen.single (ArenaTaskStep.fire 0 0 false),
    arena_task_single_flight ⟨0, 1, false⟩
      (Relation.ReflTransGen.single (ArenaTaskStep.fire 0 0 false))⟩

end PluginArena
